import Mathlib

/-!
Shallow embedding of the event-handler and styling logic of the
`TextInputWithTokens`, `ButtonInvisible` and `Breadcrumb` components,
with proofs of the behavioural claims about them.

The handlers are pure functions from their inputs (the relevant event
fields and component props/state) to the list of observable effects they
perform; a possibly-crashing handler returns an `Option` whose `none`
branch is the JavaScript `TypeError` of dereferencing `undefined`.
-/

namespace TextInputWithTokens

/-- A token id is `string | number` in the source. -/
inductive TokenId where
  | str (s : String)
  | num (n : Int)
  deriving DecidableEq, Repr

/-- `interface Token { text?: string; id: string | number }` -/
structure Token where
  text : Option String
  id : TokenId
  deriving DecidableEq, Repr

/-- Effects observable from `handleInputKeyUp`: calls of `onTokenRemove`. -/
inductive InputKeyUpEffect where
  | tokenRemove (id : TokenId)
  deriving DecidableEq, Repr

/-- Embedding of `handleInputKeyUp` (TextInputWithTokens.tsx, lines 244-254).
`value` is `e.currentTarget.value`; the JS truthiness test
`if (e.currentTarget.value) return` succeeds exactly for non-empty strings.
`tokens[tokens.length - 1]` is `undefined` on an empty list, so dereferencing
its `.id` in the Backspace branch is the `none` outcome (a `TypeError`). -/
def handleInputKeyUp (tokens : List Token) (key : String) (value : String) :
    Option (List InputKeyUpEffect) :=
  if value ≠ "" then
    some []
  else
    let lastToken : Option Token := tokens[tokens.length - 1]?
    if key = "Backspace" then
      match lastToken with
      | some t => some [InputKeyUpEffect.tokenRemove t.id]
      | none => none
    else
      some []

/-- Effects observable from `handleTokenKeyUp`. -/
inductive TokenKeyUpEffect where
  | tokenRemove (id : TokenId)
  | focusInput
  deriving DecidableEq, Repr

/-- Embedding of `handleTokenKeyUp` (TextInputWithTokens.tsx, lines 227-235):
two independent `if` statements, one for Backspace, one for Escape. -/
def handleTokenKeyUp (tokenId : TokenId) (key : String) : List TokenKeyUpEffect :=
  (if key = "Backspace" then [TokenKeyUpEffect.tokenRemove tokenId] else []) ++
  (if key = "Escape" then [TokenKeyUpEffect.focusInput] else [])

/-- A `scrollTo` call records the `behavior` and `top` arguments. -/
structure ScrollToCall where
  behavior : String
  top : ℚ
  deriving DecidableEq, Repr

/-- Embedding of `scrollIntoViewingArea` (TextInputWithTokens.tsx, lines 20-41).
The rectangles are reduced to the fields the function reads; the result is
the list of `container.scrollTo` calls the function performs. -/
def scrollIntoViewingArea (childTop childBottom containerTop containerBottom : ℚ)
    (scrollTop : ℚ) (margin : ℚ := 8) (behavior : String := "smooth") :
    List ScrollToCall :=
  let isChildTopAboveViewingArea := childTop < containerTop + margin
  let isChildBottomBelowViewingArea := childBottom > containerBottom - margin
  if isChildTopAboveViewingArea then
    let scrollHeightToChildTop := childTop - containerTop + scrollTop
    [⟨behavior, scrollHeightToChildTop - margin⟩]
  else if isChildBottomBelowViewingArea then
    let scrollHeightToChildBottom := childBottom - containerBottom + scrollTop
    [⟨behavior, scrollHeightToChildBottom + margin⟩]
  else
    []

/-- Result of `onInputKeyPress` (TextInputWithTokens.tsx, lines 255-267):
whether `preventDefault` and `stopImmediatePropagation` were called, and the
element (if any) on which a copy `(type, key)` of the event was dispatched. -/
structure KeyPressResult (α : Type) where
  defaultPrevented : Bool
  immediatePropagationStopped : Bool
  dispatched : Option (α × String × String)
  deriving DecidableEq, Repr

/-- Embedding of `onInputKeyPress`: `activeDescendant` is
`activeDescendantRef.current` (an element or `undefined`; elements are truthy). -/
def onInputKeyPress {α : Type} (eventType : String) (key : String)
    (activeDescendant : Option α) : KeyPressResult α :=
  if key = "Enter" then
    match activeDescendant with
    | some el => ⟨true, true, some (el, eventType, key)⟩
    | none => ⟨false, false, none⟩
  else
    ⟨false, false, none⟩

/-- The component state the C8 invariant is about:
`useState showMenu : Bool` (initially `false`) and
`useState selectedTokenIdx : number | undefined` (initially `undefined`). -/
structure MenuState where
  showMenu : Bool
  selectedTokenIdx : Option Nat
  deriving DecidableEq, Repr

/-- Initial state: `useState(false)` and `useState<number | undefined>()`. -/
def initState : MenuState := ⟨false, none⟩

/-- The state-changing events handled by the component. -/
inductive MenuEvent where
  | inputFocus
  | tokenFocus (i : Nat)
  | tokenBlur
  | overlayClose
  deriving DecidableEq, Repr

/-- State transition of the handlers (TextInputWithTokens.tsx, lines 206-240):
`handleInputFocus` clears the selection and shows the menu;
`handleTokenFocus i` selects token `i` and closes the menu;
`handleTokenBlur` clears the selection;
`closeOptionList` (overlay `onClickOutside` / `onEscape`) hides the menu. -/
def step (s : MenuState) : MenuEvent → MenuState
  | MenuEvent.inputFocus => ⟨true, none⟩
  | MenuEvent.tokenFocus i => ⟨false, some i⟩
  | MenuEvent.tokenBlur => ⟨s.showMenu, none⟩
  | MenuEvent.overlayClose => ⟨false, s.selectedTokenIdx⟩

/-- `isSelected` prop passed to the token at index `i`
(`isSelected={selectedTokenIdx === i}`, line 309). -/
def isSelected (s : MenuState) (i : Nat) : Bool :=
  s.selectedTokenIdx = some i

/-- The invariant: while the option-list overlay is shown, no token is selected. -/
def MenuInv (s : MenuState) : Prop :=
  s.showMenu = true → s.selectedTokenIdx = none

instance (s : MenuState) : Decidable (MenuInv s) := by
  unfold MenuInv
  infer_instance

end TextInputWithTokens

namespace Breadcrumb

/-- Embedding of the `classnames` helper: truthy arguments (non-empty strings;
`false` and `undefined` are `none`) joined with single spaces. -/
def classnames (args : List (Option String)) : String :=
  String.intercalate " " ((args.filterMap id).filter (fun s => s ≠ ""))

/-- The attributes computed by `styled.a.attrs` of `BreadcrumbItem`
(part_001, lines 62-66). -/
structure ItemAttrs where
  activeClassName : String
  className : String
  ariaCurrent : Option String
  deriving DecidableEq, Repr

/-- `const SELECTED_CLASS = 'selected'` -/
def SELECTED_CLASS : String := "selected"

/-- Embedding of the `.attrs` callback of `BreadcrumbItem`:
`toIsString` is `typeof props.to === 'string'`; `selected` and `className`
are the props (`className` is `none` when the prop is `undefined`).
`props.selected && SELECTED_CLASS` is `'selected'` when selected, else falsy. -/
def breadcrumbItemAttrs (selected : Bool) (className : Option String)
    (toIsString : Bool) : ItemAttrs :=
  { activeClassName := if toIsString then "selected" else ""
    className := classnames [if selected then some SELECTED_CLASS else none, className]
    ariaCurrent := if selected then some "page" else none }

/-- Splitting a character list at spaces (the DOM's class tokenization). -/
def splitSpaces : List Char → List (List Char)
  | [] => [[]]
  | c :: rest =>
    if c = ' ' then
      [] :: splitSpaces rest
    else
      let r := splitSpaces rest
      (c :: r.headI) :: r.tail

/-- The class names of an element: the non-empty space-separated words of its
`class` attribute (the DOM `classList` semantics). -/
def classNamesOf (className : String) : List String :=
  ((splitSpaces className.data).filter (fun w => w ≠ [])).map (fun w => String.mk w)

end Breadcrumb

namespace ButtonInvisible

/-- A CSS declaration value: a literal, or a theme lookup `get('path')`. -/
inductive CssValue where
  | lit (s : String)
  | themed (path : String)
  deriving DecidableEq, Repr

/-- Evaluating a CSS value against a theme (the resolution `get` performs). -/
def CssValue.eval (theme : String → String) : CssValue → String
  | CssValue.lit s => s
  | CssValue.themed p => theme p

/-- The style rules of a `ButtonInvisible` definition: the base declarations
and the declarations of the `&:hover`, `&:active`, `&:focus` and `&:disabled`
blocks (`none` when the definition has no such declaration). -/
structure Style where
  color : CssValue
  backgroundColor : CssValue
  border : CssValue
  borderRadius : CssValue
  boxShadow : CssValue
  hoverBackgroundColor : Option CssValue
  activeBackgroundColor : Option CssValue
  focusBoxShadow : Option CssValue
  disabledColor : Option CssValue
  disabledBackgroundColor : Option CssValue
  deriving DecidableEq, Repr

/-- Evaluating an optional declaration against a theme. -/
def evalOpt (theme : String → String) : Option CssValue → Option String
  | none => none
  | some v => some (v.eval theme)

/-- The definition in src/src/Button/ButtonInvisible.tsx (lines 7-29). -/
def styleSrc : Style :=
  { color := CssValue.themed "colors.btn.text"
    backgroundColor := CssValue.lit "transparent"
    border := CssValue.lit "0"
    borderRadius := CssValue.themed "radii.2"
    boxShadow := CssValue.lit "none"
    hoverBackgroundColor := some (CssValue.themed "colors.btn.hoverBg")
    activeBackgroundColor := some (CssValue.themed "colors.btn.selectedBg")
    focusBoxShadow := none
    disabledColor := some (CssValue.themed "colors.text.disabled")
    disabledBackgroundColor := some (CssValue.lit "transparent") }

/-- The definition in src/unnamed/part_000 (lines 7-24). -/
def stylePart000 : Style :=
  { color := CssValue.themed "colors.accent.fg"
    backgroundColor := CssValue.lit "transparent"
    border := CssValue.lit "0"
    borderRadius := CssValue.themed "radii.2"
    boxShadow := CssValue.lit "none"
    hoverBackgroundColor := none
    activeBackgroundColor := none
    focusBoxShadow := some (CssValue.themed "shadows.btn.focusShadow")
    disabledColor := some (CssValue.themed "colors.fg.muted")
    disabledBackgroundColor := none }

end ButtonInvisible

/-! ## Theorems -/

namespace TextInputWithTokens

/-- C1: on a keyup whose input value is empty and whose key is Backspace,
`handleInputKeyUp` performs exactly one `onTokenRemove` call, with the id of
the last element of the tokens list (the claim presupposes the list has a
last element); on a keyup with a non-empty input value it performs no
`onTokenRemove` call. -/
theorem handleInputKeyUp_backspace_removes_last (tokens : List Token)
    (key value : String) :
    (value = "" → key = "Backspace" → ∀ hne : tokens ≠ [],
      handleInputKeyUp tokens key value =
        some [InputKeyUpEffect.tokenRemove (tokens.getLast hne).id]) ∧
    (value ≠ "" → handleInputKeyUp tokens key value = some []) := by
  constructor
  · intro hv hk hne
    have hlast : tokens[tokens.length - 1]? = some (tokens.getLast hne) := by
      rw [← List.getLast?_eq_getElem?]
      exact List.getLast?_eq_getLast_of_ne_nil hne
    simp [handleInputKeyUp, hv, hk, hlast]
  · intro hv
    simp [handleInputKeyUp, hv]

/-- Witness for C1 at a concrete one-token list. -/
theorem handleInputKeyUp_backspace_removes_last_witness :
    handleInputKeyUp [⟨none, TokenId.num 7⟩] "Backspace" "" =
      some [InputKeyUpEffect.tokenRemove (TokenId.num 7)] ∧
    handleInputKeyUp [⟨none, TokenId.num 7⟩] "Backspace" "x" = some [] :=
  ⟨(handleInputKeyUp_backspace_removes_last [⟨none, TokenId.num 7⟩]
      "Backspace" "").1 rfl rfl (by decide),
   (handleInputKeyUp_backspace_removes_last [⟨none, TokenId.num 7⟩]
      "Backspace" "x").2 (by decide)⟩

/-- C2 fails: the handler is not total. With an empty tokens list, an empty
input value and key Backspace, `tokens[tokens.length - 1]` is `undefined` and
dereferencing its `.id` is reached: the `none` branch of the embedded access
is taken (a TypeError at runtime). -/
theorem handleInputKeyUp_empty_tokens_crash :
    handleInputKeyUp [] "Backspace" "" = none := by
  simp [handleInputKeyUp]

/-- C3: when the child lies inside the viewing area
(childTop ≥ containerTop + margin and childBottom ≤ containerBottom − margin),
`scrollIntoViewingArea` performs no `scrollTo` call. -/
theorem scrollIntoViewingArea_in_view (childTop childBottom containerTop
    containerBottom scrollTop margin : ℚ) (behavior : String)
    (htop : containerTop + margin ≤ childTop)
    (hbot : childBottom ≤ containerBottom - margin) :
    scrollIntoViewingArea childTop childBottom containerTop containerBottom
      scrollTop margin behavior = [] := by
  simp only [scrollIntoViewingArea]
  rw [if_neg (not_lt.mpr htop), if_neg (not_lt.mpr hbot)]

/-- Witness for C3 at concrete rectangles. -/
theorem scrollIntoViewingArea_in_view_witness :
    scrollIntoViewingArea 20 30 0 100 5 8 "smooth" = [] :=
  scrollIntoViewingArea_in_view 20 30 0 100 5 8 "smooth"
    (by norm_num) (by norm_num)

/-- C4: when childTop < containerTop + margin the function performs exactly
one `scrollTo` call with top `(childTop − containerTop + scrollTop) − margin`,
regardless of the child's bottom; otherwise, when
childBottom > containerBottom − margin, exactly one call with top
`(childBottom − containerBottom + scrollTop) + margin`. -/
theorem scrollIntoViewingArea_scrolls (childTop childBottom containerTop
    containerBottom scrollTop margin : ℚ) (behavior : String) :
    (childTop < containerTop + margin →
      scrollIntoViewingArea childTop childBottom containerTop containerBottom
        scrollTop margin behavior =
        [⟨behavior, childTop - containerTop + scrollTop - margin⟩]) ∧
    (¬ childTop < containerTop + margin →
      childBottom > containerBottom - margin →
      scrollIntoViewingArea childTop childBottom containerTop containerBottom
        scrollTop margin behavior =
        [⟨behavior, childBottom - containerBottom + scrollTop + margin⟩]) := by
  constructor
  · intro h
    simp only [scrollIntoViewingArea]
    rw [if_pos h]
  · intro h1 h2
    simp only [scrollIntoViewingArea]
    rw [if_neg h1, if_pos h2]

/-- Witness for C4 at concrete rectangles for each branch. -/
theorem scrollIntoViewingArea_scrolls_witness :
    scrollIntoViewingArea 0 10 20 100 5 8 "smooth" =
      [⟨"smooth", 0 - 20 + 5 - 8⟩] ∧
    scrollIntoViewingArea 50 120 20 100 5 8 "smooth" =
      [⟨"smooth", 120 - 100 + 5 + 8⟩] :=
  ⟨(scrollIntoViewingArea_scrolls 0 10 20 100 5 8 "smooth").1 (by norm_num),
   (scrollIntoViewingArea_scrolls 50 120 20 100 5 8 "smooth").2
     (by norm_num) (by norm_num)⟩

/-- C5 fails on the code: when the child overflows the viewing area on both
ends (childTop 0 < containerTop 10 + margin 8, and childBottom 100 >
containerBottom 50 − margin 8), the first branch still fires and
`container.scrollTo` IS called once, with top −18 — contrary to the claim
(and to the source's own comment that it does not scroll in this case). -/
theorem scrollIntoViewingArea_both_ends_still_scrolls :
    ((0 : ℚ) < 10 + 8 ∧ (100 : ℚ) > 50 - 8) ∧
    scrollIntoViewingArea 0 100 10 50 0 8 "smooth" = [⟨"smooth", -18⟩] := by
  refine ⟨by norm_num, ?_⟩
  norm_num [scrollIntoViewingArea]

/-- C6: `onInputKeyPress` prevents default, stops immediate propagation and
dispatches a copy of the event on the active descendant exactly when the key
is Enter and an active descendant is tracked; otherwise it does nothing. -/
theorem onInputKeyPress_enter_forwards {α : Type} (eventType key : String)
    (activeDescendant : Option α) :
    (key = "Enter" → ∀ el : α, activeDescendant = some el →
      onInputKeyPress eventType key activeDescendant =
        ⟨true, true, some (el, eventType, key)⟩) ∧
    (key ≠ "Enter" ∨ activeDescendant = none →
      onInputKeyPress eventType key activeDescendant =
        ⟨false, false, none⟩) := by
  constructor
  · rintro rfl el rfl
    simp [onInputKeyPress]
  · rintro (hk | rfl)
    · simp [onInputKeyPress, hk]
    · by_cases hk : key = "Enter" <;> simp [onInputKeyPress, hk]

/-- Witness for C6 at concrete events. -/
theorem onInputKeyPress_enter_forwards_witness :
    onInputKeyPress "keypress" "Enter" (some (0 : ℕ)) =
      ⟨true, true, some (0, "keypress", "Enter")⟩ ∧
    onInputKeyPress "keypress" "a" (some (0 : ℕ)) = ⟨false, false, none⟩ :=
  ⟨(onInputKeyPress_enter_forwards "keypress" "Enter" (some 0)).1 rfl 0 rfl,
   (onInputKeyPress_enter_forwards "keypress" "a" (some 0)).2
     (Or.inl (by decide))⟩

/-- C7: `handleTokenKeyUp t` removes token `t` on Backspace, focuses the text
input on Escape, and does neither on any other key; the two checks are
independent `if` statements, not exclusive branches. -/
theorem handleTokenKeyUp_backspace_escape (tokenId : TokenId) (key : String) :
    handleTokenKeyUp tokenId "Backspace" =
      [TokenKeyUpEffect.tokenRemove tokenId] ∧
    handleTokenKeyUp tokenId "Escape" = [TokenKeyUpEffect.focusInput] ∧
    (key ≠ "Backspace" → key ≠ "Escape" →
      handleTokenKeyUp tokenId key = []) := by
  refine ⟨by simp [handleTokenKeyUp], by simp [handleTokenKeyUp], ?_⟩
  intro h1 h2
  simp [handleTokenKeyUp, h1, h2]

/-- Witness for C7 at a concrete token id and key. -/
theorem handleTokenKeyUp_backspace_escape_witness :
    handleTokenKeyUp (TokenId.str "a") "Backspace" =
      [TokenKeyUpEffect.tokenRemove (TokenId.str "a")] ∧
    handleTokenKeyUp (TokenId.str "a") "q" = [] :=
  ⟨(handleTokenKeyUp_backspace_escape (TokenId.str "a") "q").1,
   (handleTokenKeyUp_backspace_escape (TokenId.str "a") "q").2.2
     (by decide) (by decide)⟩

/-- C8: the invariant "while the overlay is shown no token is selected" holds
initially and is preserved by every handler; moreover at most one token index
is `isSelected` at any time, and none is while the overlay is shown. -/
theorem menuState_invariant (s : MenuState) (e : MenuEvent) :
    MenuInv initState ∧
    (MenuInv s → MenuInv (step s e)) ∧
    (∀ i j : Nat, isSelected s i = true → isSelected s j = true → i = j) ∧
    (MenuInv s → s.showMenu = true → ∀ i : Nat, isSelected s i = false) := by
  refine ⟨by simp [MenuInv, initState], ?_, ?_, ?_⟩
  · intro _
    cases e <;> simp [MenuInv, step]
  · intro i j hi hj
    simp [isSelected] at hi hj
    simpa [hi] using hj
  · intro hinv hmenu i
    simp [isSelected, hinv hmenu]

/-- Witness for C8 at a concrete state and event. -/
theorem menuState_invariant_witness :
    MenuInv (step ⟨false, some 2⟩ MenuEvent.inputFocus) ∧
    isSelected ⟨true, none⟩ 0 = false :=
  ⟨(menuState_invariant ⟨false, some 2⟩ MenuEvent.inputFocus).2.1 (by decide),
   (menuState_invariant ⟨true, none⟩ MenuEvent.tokenBlur).2.2.2
     (by decide) rfl 0⟩

end TextInputWithTokens

namespace Breadcrumb

/-- `splitSpaces` pulls a concrete non-space word followed by a space off the
front of the character list. -/
theorem splitSpaces_selected_word (r : List Char) :
    splitSpaces ('s' :: 'e' :: 'l' :: 'e' :: 'c' :: 't' :: 'e' :: 'd' :: ' ' :: r) =
      ['s', 'e', 'l', 'e', 'c', 't', 'e', 'd'] :: splitSpaces r := by
  simp [splitSpaces]

/-- The class `selected` is among the class names of any class string of the
form `"selected" ++ " " ++ c`. -/
theorem selected_mem_classNamesOf_append (c : String) :
    SELECTED_CLASS ∈ classNamesOf ("selected" ++ " " ++ c) := by
  have hdata : ("selected" ++ " " ++ c).data =
      's' :: 'e' :: 'l' :: 'e' :: 'c' :: 't' :: 'e' :: 'd' :: ' ' :: c.data := by
    rw [String.data_append]
    rw [show ("selected" ++ " ").data =
      ['s', 'e', 'l', 'e', 'c', 't', 'e', 'd', ' '] from rfl]
    rfl
  unfold classNamesOf
  rw [hdata, splitSpaces_selected_word]
  simp [SELECTED_CLASS]

/-- `classnames` of a single defined non-empty argument is that argument. -/
theorem classnames_single (c : String) (hc : c ≠ "") :
    classnames [none, some c] = c := by
  unfold classnames
  rw [show (([none, some c] : List (Option String)).filterMap id) = [c] from rfl]
  simp [hc]
  rfl

/-- `classnames` of the selected class and a defined non-empty argument. -/
theorem classnames_selected_pair (c : String) (hc : c ≠ "") :
    classnames [some SELECTED_CLASS, some c] = "selected" ++ " " ++ c := by
  unfold classnames
  rw [show (([some SELECTED_CLASS, some c] : List (Option String)).filterMap id) =
    [SELECTED_CLASS, c] from rfl]
  simp [SELECTED_CLASS, hc]
  rfl

end Breadcrumb

namespace Breadcrumb

/-- C9 fails as stated: with selected = false and a caller-provided className
of "selected", aria-current is null (as claimed) but the class 'selected' IS
among the anchor's class names, so the membership biconditional is false. -/
theorem breadcrumbItem_selected_class_cex :
    (breadcrumbItemAttrs false (some "selected") false).ariaCurrent = none ∧
    ¬ ((SELECTED_CLASS ∈
        classNamesOf (breadcrumbItemAttrs false (some "selected") false).className) ↔
      (false : Bool) = true) := by
  decide

/-- C9 (amended): the rendered anchor's aria-current equals 'page' exactly
when selected is true (and is null otherwise), and the class 'selected' is
among its class names exactly when selected is true or the caller-provided
className itself already contains the class 'selected'. -/
theorem breadcrumbItemAttrs_selected (selected : Bool)
    (className : Option String) (toIsString : Bool) :
    ((breadcrumbItemAttrs selected className toIsString).ariaCurrent =
      if selected then some "page" else none) ∧
    (SELECTED_CLASS ∈
        classNamesOf (breadcrumbItemAttrs selected className toIsString).className ↔
      selected = true ∨ SELECTED_CLASS ∈ classNamesOf (className.getD "")) := by
  refine ⟨rfl, ?_⟩
  cases selected with
  | false =>
    cases className with
    | none =>
      rw [show (breadcrumbItemAttrs false none toIsString).className = "" from rfl]
      decide
    | some c =>
      by_cases hc : c = ""
      · subst hc
        rw [show (breadcrumbItemAttrs false (some "") toIsString).className = ""
          from rfl]
        decide
      · rw [show (breadcrumbItemAttrs false (some c) toIsString).className =
          classnames [none, some c] from rfl, classnames_single c hc]
        simp
  | true =>
    cases className with
    | none =>
      rw [show (breadcrumbItemAttrs true none toIsString).className = "selected"
        from rfl]
      decide
    | some c =>
      by_cases hc : c = ""
      · subst hc
        rw [show (breadcrumbItemAttrs true (some "") toIsString).className =
          "selected" from rfl]
        decide
      · rw [show (breadcrumbItemAttrs true (some c) toIsString).className =
          classnames [some SELECTED_CLASS, some c] from rfl,
          classnames_selected_pair c hc]
        exact iff_of_true (selected_mem_classNamesOf_append c) (Or.inl rfl)

end Breadcrumb

namespace ButtonInvisible

/-- C10 fails: the two ButtonInvisible definitions do not produce the same
style rules. Under the theme that maps every token path to itself, the base
color of the src definition resolves to 'colors.btn.text' while part_000's
resolves to 'colors.accent.fg', and src has a hover rule part_000 lacks. -/
theorem buttonInvisible_not_equivalent :
    CssValue.eval (fun p => p) styleSrc.color ≠
      CssValue.eval (fun p => p) stylePart000.color ∧
    evalOpt (fun p => p) styleSrc.hoverBackgroundColor ≠
      evalOpt (fun p => p) stylePart000.hoverBackgroundColor ∧
    styleSrc ≠ stylePart000 := by
  decide

/-- C10 (amended): the two definitions agree on background-color, border,
border-radius and base box-shadow under every theme, but differ in base color
(btn.text vs accent.fg), in hover and active rules (present only in src), in
the focus rule (present only in part_000), and in the disabled rules. -/
theorem buttonInvisible_partial_agreement :
    (∀ theme : String → String,
      CssValue.eval theme styleSrc.backgroundColor =
        CssValue.eval theme stylePart000.backgroundColor ∧
      CssValue.eval theme styleSrc.border =
        CssValue.eval theme stylePart000.border ∧
      CssValue.eval theme styleSrc.borderRadius =
        CssValue.eval theme stylePart000.borderRadius ∧
      CssValue.eval theme styleSrc.boxShadow =
        CssValue.eval theme stylePart000.boxShadow) ∧
    styleSrc.color = CssValue.themed "colors.btn.text" ∧
    stylePart000.color = CssValue.themed "colors.accent.fg" ∧
    styleSrc.hoverBackgroundColor = some (CssValue.themed "colors.btn.hoverBg") ∧
    stylePart000.hoverBackgroundColor = none ∧
    styleSrc.activeBackgroundColor = some (CssValue.themed "colors.btn.selectedBg") ∧
    stylePart000.activeBackgroundColor = none ∧
    styleSrc.focusBoxShadow = none ∧
    stylePart000.focusBoxShadow = some (CssValue.themed "shadows.btn.focusShadow") ∧
    styleSrc.disabledColor = some (CssValue.themed "colors.text.disabled") ∧
    stylePart000.disabledColor = some (CssValue.themed "colors.fg.muted") ∧
    styleSrc.disabledBackgroundColor = some (CssValue.lit "transparent") ∧
    stylePart000.disabledBackgroundColor = none :=
  ⟨fun _ => ⟨rfl, rfl, rfl, rfl⟩,
   rfl, rfl, rfl, rfl, rfl, rfl, rfl, rfl, rfl, rfl, rfl, rfl⟩

end ButtonInvisible
